import Mathlib

/-!
Shallow embedding of the refresh-and-reconcile engine of `src/app.py`
(a Streamlit dashboard reconciling a USD/BRL quote feed with two
business-record collections), together with proofs about the
normalizer, the schedule gate, the metrics calculator, the filter
engine and the startup gate.

Conventions of the embedding:
- pandas cell values become the inductive type `Celula`; floats are
  modelled as rationals, `NaN`/`NaT`/missing as `Celula.nulo`;
- a pandas `DataFrame` becomes an ordered association list of named
  columns;
- `pd.to_numeric(errors := coerce)` and `pd.to_datetime` become total
  Lean functions returning `Option`; the strict (raising) variant of
  `pd.to_datetime` returns `Except`;
- timezone-aware datetimes carry their absolute instant as UTC epoch
  seconds (`Celula.tsAware`); naive datetimes carry their clock value
  as epoch seconds (`Celula.tsNaive`).
-/

namespace DashCompras

/-- Cell values of a tabular record set.  `nulo` models `NaN`/`NaT`/missing,
`num` a float (as a rational), `texto` a raw string, `tsAware` a
timezone-aware datetime (absolute instant, as UTC epoch seconds) and
`tsNaive` a timezone-naive datetime (clock value, as epoch seconds). -/
inductive Celula where
  | nulo : Celula
  | num (q : ℚ) : Celula
  | texto (s : String) : Celula
  | tsAware (utcEpoch : ℤ) : Celula
  | tsNaive (t : ℤ) : Celula
deriving DecidableEq

/-- Numeric value of a list of decimal digit characters (most significant
first); helper for the string parsers. -/
def natOfDigits (cs : List Char) : ℕ :=
  cs.foldl (fun acc c => acc * 10 + (c.toNat - 48)) 0

/-- Parse of a decimal number string (optional sign, integer part,
optional fraction part), modelling the numeric strings accepted by
`pd.to_numeric`.  Returns `none` on anything else. -/
def parseDecimalString (s : String) : Option ℚ :=
  let cs := s.data
  let sgn : ℚ := match cs with
    | c :: _ => if c = '-' then -1 else 1
    | [] => 1
  let cs2 : List Char := match cs with
    | c :: rest => if c = '-' ∨ c = '+' then rest else cs
    | [] => []
  let intPart := cs2.takeWhile (fun c => c.isDigit)
  let rest := cs2.dropWhile (fun c => c.isDigit)
  match rest with
  | [] =>
    if intPart.isEmpty then none
    else some (sgn * (natOfDigits intPart : ℚ))
  | c :: frac =>
    if c = '.' ∧ frac.all (fun d => d.isDigit) ∧
        (intPart.isEmpty = false ∨ frac.isEmpty = false) then
      some (sgn * ((natOfDigits intPart : ℚ) +
        (natOfDigits frac : ℚ) / ((10 : ℚ) ^ frac.length)))
    else none

/-- Day count since the Unix epoch of a civil date (proleptic Gregorian
calendar); helper for the timestamp parser. -/
def daysFromCivil (y m d : ℤ) : ℤ :=
  let y2 := if 2 < m then y else y - 1
  let era := (if 0 ≤ y2 then y2 else y2 - 399) / 400
  let yoe := y2 - era * 400
  let mp := (m + 9) % 12
  let doy := (153 * mp + 2) / 5 + d - 1
  let doe := yoe * 365 + yoe / 4 - yoe / 100 + doy
  era * 146097 + doe - 719468

/-- Parse of an ISO-8601 timestamp string
(`YYYY-MM-DD`, optionally `THH:MM:SS`, optionally `Z` or `+HH:MM` or
`-HH:MM`), modelling the datetime strings accepted by `pd.to_datetime`.
A string with an explicit offset parses to a timezone-aware instant
(first component `true`, second the instant converted to UTC epoch
seconds); one without parses to a naive instant (first component
`false`).  Returns `none` on anything else. -/
def parseTimestamp (s : String) : Option (Bool × ℤ) :=
  match s.data with
  | y1 :: y2 :: y3 :: y4 :: c1 :: m1 :: m2 :: c2 :: d1 :: d2 :: rest =>
    if ([y1, y2, y3, y4, m1, m2, d1, d2].all (fun c => c.isDigit)) ∧
        c1 = '-' ∧ c2 = '-' then
      let y := (natOfDigits [y1, y2, y3, y4] : ℤ)
      let mo := (natOfDigits [m1, m2] : ℤ)
      let da := (natOfDigits [d1, d2] : ℤ)
      if 1 ≤ mo ∧ mo ≤ 12 ∧ 1 ≤ da ∧ da ≤ 31 then
        let base := daysFromCivil y mo da * 86400
        match rest with
        | [] => some (false, base)
        | t :: h1 :: h2 :: k1 :: i1 :: i2 :: k2 :: s1 :: s2 :: tzPart =>
          if (t = 'T' ∨ t = ' ') ∧ k1 = ':' ∧ k2 = ':' ∧
              ([h1, h2, i1, i2, s1, s2].all (fun c => c.isDigit)) then
            let hh := (natOfDigits [h1, h2] : ℤ)
            let mi := (natOfDigits [i1, i2] : ℤ)
            let ss := (natOfDigits [s1, s2] : ℤ)
            if hh ≤ 23 ∧ mi ≤ 59 ∧ ss ≤ 59 then
              let tval := base + hh * 3600 + mi * 60 + ss
              match tzPart with
              | [] => some (false, tval)
              | ['Z'] => some (true, tval)
              | [sg, o1, o2, kc, p1, p2] =>
                if (sg = '+' ∨ sg = '-') ∧ kc = ':' ∧
                    ([o1, o2, p1, p2].all (fun c => c.isDigit)) then
                  let off := (natOfDigits [o1, o2] : ℤ) * 3600 +
                    (natOfDigits [p1, p2] : ℤ) * 60
                  some (true, if sg = '+' then tval - off else tval + off)
                else none
              | _ => none
            else none
          else none
        | _ => none
      else none
    else none
  | _ => none

/-- Conversion of a parse result to a datetime cell: aware instants
become `tsAware`, naive ones `tsNaive`. -/
def tsCelula (p : Bool × ℤ) : Celula :=
  if p.1 then .tsAware p.2 else .tsNaive p.2

/-- Numeric reading of one cell, modelling `pd.to_numeric(errors := coerce)`
applied to a single value: numbers pass through, numeric strings parse,
everything else (including missing values) becomes `NaN`, i.e. `none`. -/
def to_numeric (v : Celula) : Option ℚ :=
  match v with
  | .num q => some q
  | .texto s => parseDecimalString s
  | _ => none

/-- Datetime reading of one cell, modelling `pd.to_datetime(errors := coerce)`
applied to a single value: datetimes pass through, timestamp strings
parse (aware or naive), numbers are read as epoch seconds, everything
else becomes `NaT`, i.e. `none`. -/
def to_datetime_coerce (v : Celula) : Option Celula :=
  match v with
  | .nulo => none
  | .num q => some (.tsNaive ⌊q⌋)
  | .texto s => (parseTimestamp s).map tsCelula
  | .tsAware e => some (.tsAware e)
  | .tsNaive t => some (.tsNaive t)

/-- Normalization of one cell of a decimal column, modelling
`pd.to_numeric(df[col], errors := coerce).fillna(0)` per cell:
parse as a number, with unparsable or missing values becoming 0. -/
def tratar_decimal_celula (v : Celula) : Celula :=
  .num ((to_numeric v).getD 0)

/-- Normalization of one cell of a timestamp column, modelling the body
of `tratar_datas` per cell: `pd.to_datetime(errors := coerce)`, then
(for timezone-aware values) `tz_convert(UTC)` followed by
`tz_localize(None)`, which drops the timezone leaving the UTC clock
value as a naive instant.  Unparsable values become `NaT` (`nulo`). -/
def tratar_data_celula (v : Celula) : Celula :=
  match to_datetime_coerce v with
  | none => .nulo
  | some (.tsAware e) => .tsNaive e
  | some c => c

/-- Tabular record set: an ordered association list of named columns. -/
abbrev DataFrame := List (String × List Celula)

/-- Column names of a record set (`df.columns`). -/
def colNames (df : DataFrame) : List String := df.map (fun p => p.1)

/-- Presence test of a column (`col in df.columns`). -/
def hasCol (df : DataFrame) (c : String) : Bool :=
  df.any (fun p => p.1 == c)

/-- Lookup of a column by name. -/
def getCol (df : DataFrame) (c : String) : Option (List Celula) :=
  (df.find? (fun p => p.1 == c)).map (fun p => p.2)

/-- Cellwise update of every column with a given name
(`df[col] = df[col].map f`). -/
def mapCol (df : DataFrame) (c : String) (f : Celula → Celula) : DataFrame :=
  df.map (fun p => if p.1 == c then (p.1, p.2.map f) else p)

/-- The loop shared by `tratar_decimais` and `tratar_datas`:
for each requested column, if it is present, its cells are rewritten
by `f`; absent columns are skipped silently. -/
def tratar (f : Celula → Celula) (df : DataFrame) (colunas : List String) :
    DataFrame :=
  colunas.foldl (fun acc col => if hasCol acc col then mapCol acc col f else acc) df

/-- Embedding of `tratar_decimais` (src/app.py lines 64-68). -/
def tratar_decimais (df : DataFrame) (colunas : List String) : DataFrame :=
  tratar tratar_decimal_celula df colunas

/-- Embedding of `tratar_datas` (src/app.py lines 70-77). -/
def tratar_datas (df : DataFrame) (colunas : List String) : DataFrame :=
  tratar tratar_data_celula df colunas

/-- Strict datetime reading of one cell, modelling
`pd.to_datetime` WITHOUT `errors := coerce` (src/app.py line 121, used
on the purchase orders): an unparsable value raises instead of becoming
`NaT`, and timezone-aware values are kept aware (no stripping). -/
def to_datetime_strict (v : Celula) : Except String Celula :=
  match v with
  | .nulo => .ok .nulo
  | .num q => .ok (.tsNaive ⌊q⌋)
  | .texto s =>
    match parseTimestamp s with
    | some p => .ok (tsCelula p)
    | none => .error s
  | .tsAware e => .ok (.tsAware e)
  | .tsNaive t => .ok (.tsNaive t)

/-- Embedding of the datetime conversion on line 121 of src/app.py,
`pd.to_datetime(df_ordens[...])` applied to a whole column: it raises
(`Except.error`) as soon as any cell is unparsable. -/
def to_datetime_col_strict (col : List Celula) : Except String (List Celula) :=
  col.mapM to_datetime_strict

/-- Embedding of `dentro_do_horario` (src/app.py lines 30-37): the
schedule gate, evaluated on the local wall clock broken into weekday
(Monday = 0 ... Sunday = 6), hour and minute.  The source computes
`hora = hour + minute / 60` (seconds are ignored) and tests
`8 <= hora <= 12.5 or 13.5 <= hora <= 18` on Monday-Friday. -/
def dentro_do_horario (diaSemana hour minute : ℕ) : Bool :=
  if 5 ≤ diaSemana then false
  else
    let hora : ℚ := (hour : ℚ) + (minute : ℚ) / 60
    decide ((8 ≤ hora ∧ hora ≤ 12.5) ∨ (13.5 ≤ hora ∧ hora ≤ 18))

/-- Predicate transcribing C2 as stated: Monday-Friday and clock inside
the half-open windows 08:00-12:30 and 13:30-18:00 (right endpoint
excluded). -/
def specIsOpen (diaSemana hour minute : ℕ) : Prop :=
  diaSemana < 5 ∧
    ((8 ≤ (hour : ℚ) + (minute : ℚ) / 60 ∧ (hour : ℚ) + (minute : ℚ) / 60 < 12.5) ∨
     (13.5 ≤ (hour : ℚ) + (minute : ℚ) / 60 ∧ (hour : ℚ) + (minute : ℚ) / 60 < 18))

instance (d h m : ℕ) : Decidable (specIsOpen d h m) := by
  unfold specIsOpen; infer_instance

/-- One point of the historical quote series: timestamp (epoch seconds,
as returned by the feed) and bid price. -/
structure QuotePoint where
  timestamp : ℤ
  bid : ℚ
deriving DecidableEq

/-- Stable insertion of a point into a series sorted ascending by
timestamp. -/
def insertByTs (p : QuotePoint) : List QuotePoint → List QuotePoint
  | [] => [p]
  | q :: qs =>
    if p.timestamp ≤ q.timestamp then p :: q :: qs else q :: insertByTs p qs

/-- Ascending sort of a series by timestamp, modelling
`df_hist.sort_values(timestamp)` (src/app.py line 176). -/
def sortByTs : List QuotePoint → List QuotePoint
  | [] => []
  | p :: ps => insertByTs p (sortByTs ps)

/-- Embedding of `ultimos_valores` (src/app.py line 178): the bid column
of the sorted history. -/
def ultimos_valores (series : List QuotePoint) : List ℚ :=
  (sortByTs series).map (fun p => p.bid)

/-- Embedding of the variation computation (src/app.py lines 179-184):
with fewer than 2 points the cycle is skipped (`none`); otherwise
`variacao = (ultimos_valores[-1] - ultimos_valores[-2]) / ultimos_valores[-2] * 100`. -/
def variacao (series : List QuotePoint) : Option ℚ :=
  let vals := ultimos_valores series
  if vals.length < 2 then none
  else
    let fechamento_anterior := vals.getD (vals.length - 2) 0
    some ((vals.getD (vals.length - 1) 0 - fechamento_anterior) /
      fechamento_anterior * 100)

/-- One normalized sales order (`df_pedidos` row).  Set-valued filter
dimensions and the derived date are optional: a missing source value is
`none`. -/
structure SalesOrder where
  assunto : Option String
  status : Option String
  condicaoPagamento : Option String
  pedidoFilho : Option String
  qtdVendida : ℚ
  produto : Option String
  data : Option ℤ
deriving DecidableEq

/-- One normalized purchase order (`df_ordens` row). -/
structure PurchaseOrder where
  produto : Option String
  qtdComprada : ℚ
  armazem : Option String
  pedidoCompra : Option String
  numeroPedido : ℤ
  data : Option ℤ
deriving DecidableEq

/-- The user-selected filter specification for the sales orders: one
exact date plus one allowed-value list per set-valued dimension. -/
structure FiltrosPedidos where
  dataFiltrada : ℤ
  condicaoSelecionada : List String
  pedidoFilhoSelecionado : List String
  statusSelecionado : List String
deriving DecidableEq

/-- Membership test of an optional value in an allowed list, modelling
pandas `.isin` on a column that may hold nulls against a null-free
option list: a null value never matches. -/
def optIsin (v : Option String) (allowed : List String) : Bool :=
  match v with
  | some s => allowed.contains s
  | none => false

/-- Row predicate of the sales-order filter (src/app.py lines 236-241):
derived date equals the selected date AND each set-valued dimension
has a value that is a member of its allowed list. -/
def pedidoPassa (f : FiltrosPedidos) (r : SalesOrder) : Bool :=
  (r.data == some f.dataFiltrada) &&
  optIsin r.condicaoPagamento f.condicaoSelecionada &&
  optIsin r.pedidoFilho f.pedidoFilhoSelecionado &&
  optIsin r.status f.statusSelecionado

/-- Embedding of `df_pedidos_filtrado` (src/app.py lines 236-241). -/
def df_pedidos_filtrado (df : List SalesOrder) (f : FiltrosPedidos) :
    List SalesOrder :=
  df.filter (pedidoPassa f)

/-- Embedding of `df_ordens_filtrado` (src/app.py lines 242-245). -/
def df_ordens_filtrado (df : List PurchaseOrder) (dataFiltrada : ℤ)
    (armazemSelecionado : List String) : List PurchaseOrder :=
  df.filter (fun r =>
    (r.data == some dataFiltrada) && optIsin r.armazem armazemSelecionado)

/-- Embedding of `condicoes` (src/app.py line 130): the distinct
non-null payment-term values observed, `dropna().unique()`. -/
def condicoes (df : List SalesOrder) : List String :=
  (df.filterMap (fun r => r.condicaoPagamento)).dedup

/-- Embedding of `ped_filho_options` (src/app.py line 133). -/
def ped_filho_options (df : List SalesOrder) : List String :=
  (df.filterMap (fun r => r.pedidoFilho)).dedup

/-- Embedding of `status_options` (src/app.py line 136). -/
def status_options (df : List SalesOrder) : List String :=
  (df.filterMap (fun r => r.status)).dedup

/-- Embedding of `armazens` (src/app.py line 139). -/
def armazens (df : List PurchaseOrder) : List String :=
  (df.filterMap (fun r => r.armazem)).dedup

/-- Outcome of startup (src/app.py lines 95-100): either the process
halts with a user-visible warning before the refresh loop, or the
engine starts holding both seed record sets. -/
inductive StartupResult where
  | halted (warning : String) : StartupResult
  | started (pedidos : List SalesOrder) (ordens : List PurchaseOrder) :
      StartupResult
deriving DecidableEq

/-- Embedding of the startup gate (src/app.py lines 95-100): if either
loaded collection is empty, warn and stop before the loop ever runs. -/
def startup (pedidos_raw : List SalesOrder) (ordens_raw : List PurchaseOrder) :
    StartupResult :=
  if pedidos_raw.isEmpty ∨ ordens_raw.isEmpty then
    .halted "Nenhum dado encontrado no MongoDB. Verifique as colecoes."
  else
    .started pedidos_raw ordens_raw

/-- Whether a startup outcome enters the refresh loop at all: a halted
startup never runs any cycle. -/
def entersLoop (r : StartupResult) : Bool :=
  match r with
  | .halted _ => false
  | .started _ _ => true

/-! Helper lemmas about the normalizer's column operations. -/

lemma colNames_mapCol (df : DataFrame) (c : String) (f : Celula → Celula) :
    colNames (mapCol df c f) = colNames df := by
  induction df with
  | nil => rfl
  | cons p ps ih =>
    show (if p.1 == c then (p.1, p.2.map f) else p).1 :: colNames (mapCol ps c f) =
      p.1 :: colNames ps
    rw [ih]
    by_cases h : (p.1 == c) = true <;> simp [h]

lemma getCol_cons (p : String × List Celula) (ps : DataFrame) (col : String) :
    getCol (p :: ps) col = if p.1 == col then some p.2 else getCol ps col := by
  by_cases h : (p.1 == col) = true <;> simp [getCol, List.find?, h]

lemma getCol_eq_none_of_not_hasCol (df : DataFrame) (c : String)
    (h : hasCol df c = false) : getCol df c = none := by
  have h2 : List.find? (fun p => p.1 == c) df = none := by
    rw [List.find?_eq_none]
    intro x hx
    simp only [hasCol, List.any_eq_false] at h
    simpa using h x hx
  simp [getCol, h2]

lemma getCol_mapCol (df : DataFrame) (c col : String) (f : Celula → Celula) :
    getCol (mapCol df c f) col =
      if col = c then (getCol df col).map (List.map f) else getCol df col := by
  induction df with
  | nil => by_cases h : col = c <;> simp [getCol, mapCol, h]
  | cons p ps ih =>
    have hcons : mapCol (p :: ps) c f =
        (if p.1 == c then (p.1, p.2.map f) else p) :: mapCol ps c f := rfl
    by_cases hpc : p.1 = c <;> by_cases hpcol : p.1 = col
    · have hcc : col = c := by rw [← hpcol, hpc]
      rw [hcons, if_pos (by rwa [beq_iff_eq]), getCol_cons, getCol_cons]
      simp [hpcol, hcc]
    · have hcc : ¬ col = c := fun h => hpcol (by rw [hpc, h])
      rw [hcons, if_pos (by rwa [beq_iff_eq]), getCol_cons, getCol_cons, ih]
      simp [hpcol, hcc]
    · have hcc : ¬ col = c := fun h => hpc (by rw [hpcol, h])
      rw [hcons, if_neg (by simpa [beq_iff_eq] using hpc), getCol_cons,
        getCol_cons]
      simp [hpcol, hcc]
    · rw [hcons, if_neg (by simpa [beq_iff_eq] using hpc), getCol_cons,
        getCol_cons, ih]
      by_cases hcc : col = c <;> simp [hpc, hpcol, hcc]

lemma map_map_of_idem (f : Celula → Celula) (hf : ∀ v, f (f v) = f v)
    (xs : List Celula) : (xs.map f).map f = xs.map f := by
  induction xs with
  | nil => rfl
  | cons x xs ih => simp [hf, ih]

lemma colNames_tratar (f : Celula → Celula) (colunas : List String)
    (df : DataFrame) : colNames (tratar f df colunas) = colNames df := by
  induction colunas generalizing df with
  | nil => rfl
  | cons c cs ih =>
    show colNames (tratar f (if hasCol df c then mapCol df c f else df) cs) = _
    rw [ih]
    by_cases h : hasCol df c <;> simp [h, colNames_mapCol]

lemma getCol_tratar (f : Celula → Celula) (hf : ∀ v, f (f v) = f v)
    (colunas : List String) (df : DataFrame) (col : String) :
    getCol (tratar f df colunas) col =
      if col ∈ colunas then (getCol df col).map (List.map f)
      else getCol df col := by
  induction colunas generalizing df with
  | nil => simp [tratar]
  | cons c cs ih =>
    show getCol (tratar f (if hasCol df c then mapCol df c f else df) cs) col = _
    rw [ih]
    by_cases hcc : hasCol df c
    · rw [if_pos hcc]
      rw [getCol_mapCol]
      by_cases h1 : col = c <;> by_cases h2 : col ∈ cs <;>
        simp [h1, h2, Option.map_map, Function.comp_def,
          map_map_of_idem f hf]
    · rw [if_neg hcc]
      by_cases h1 : col = c <;> by_cases h2 : col ∈ cs <;>
        simp [h1, h2, getCol_eq_none_of_not_hasCol df c (by simpa using hcc)]

lemma tratar_decimal_celula_idem (v : Celula) :
    tratar_decimal_celula (tratar_decimal_celula v) = tratar_decimal_celula v := by
  simp [tratar_decimal_celula, to_numeric]

lemma tratar_data_celula_idem (v : Celula) :
    tratar_data_celula (tratar_data_celula v) = tratar_data_celula v := by
  cases v with
  | nulo => rfl
  | num q => rfl
  | texto s =>
    simp only [tratar_data_celula, to_datetime_coerce]
    cases hp : parseTimestamp s with
    | none => rfl
    | some p =>
      rcases p with ⟨a, t⟩
      cases a <;> simp [tsCelula]
  | tsAware e => rfl
  | tsNaive t => rfl

/-- The normalized datetime cell is always a naive instant or a null:
no timezone-aware value survives `tratar_datas`. -/
lemma tratar_data_celula_shape (v : Celula) :
    tratar_data_celula v = .nulo ∨ ∃ t, tratar_data_celula v = .tsNaive t := by
  cases v with
  | nulo => exact Or.inl rfl
  | num q => exact Or.inr ⟨⌊q⌋, rfl⟩
  | texto s =>
    have h : tratar_data_celula (.texto s) =
        match (parseTimestamp s).map tsCelula with
        | none => .nulo
        | some (.tsAware e) => .tsNaive e
        | some c => c := rfl
    rw [h]
    cases hp : parseTimestamp s with
    | none => exact Or.inl rfl
    | some p =>
      rcases p with ⟨a, t⟩
      cases a
      · exact Or.inr ⟨t, rfl⟩
      · exact Or.inr ⟨t, rfl⟩
  | tsAware e => exact Or.inr ⟨e, rfl⟩
  | tsNaive t => exact Or.inr ⟨t, rfl⟩

/-! Helper lemmas about the historical-series sort. -/

lemma length_insertByTs (p : QuotePoint) (l : List QuotePoint) :
    (insertByTs p l).length = l.length + 1 := by
  induction l with
  | nil => rfl
  | cons q qs ih =>
    unfold insertByTs
    by_cases h : p.timestamp ≤ q.timestamp <;> simp [h, ih]

lemma length_sortByTs (l : List QuotePoint) : (sortByTs l).length = l.length := by
  induction l with
  | nil => rfl
  | cons p ps ih => simp [sortByTs, length_insertByTs, ih]

lemma length_ultimos_valores (s : List QuotePoint) :
    (ultimos_valores s).length = s.length := by
  simp [ultimos_valores, length_sortByTs]

lemma mem_insertByTs {q p : QuotePoint} {l : List QuotePoint}
    (hq : q ∈ insertByTs p l) : q = p ∨ q ∈ l := by
  induction l with
  | nil =>
    simp only [insertByTs, List.mem_singleton] at hq
    exact Or.inl hq
  | cons r rs ih =>
    unfold insertByTs at hq
    by_cases h : p.timestamp ≤ r.timestamp
    · rw [if_pos h] at hq
      rcases List.mem_cons.mp hq with h1 | h1
      · exact Or.inl h1
      · exact Or.inr h1
    · rw [if_neg h] at hq
      rcases List.mem_cons.mp hq with h1 | h1
      · exact Or.inr (List.mem_cons.mpr (Or.inl h1))
      · rcases ih h1 with h2 | h2
        · exact Or.inl h2
        · exact Or.inr (List.mem_cons.mpr (Or.inr h2))

lemma mem_sortByTs {q : QuotePoint} {l : List QuotePoint}
    (hq : q ∈ sortByTs l) : q ∈ l := by
  induction l with
  | nil => simp [sortByTs] at hq
  | cons p ps ih =>
    unfold sortByTs at hq
    rcases mem_insertByTs hq with h | h
    · rw [h]
      exact List.mem_cons_self p ps
    · exact List.mem_cons.mpr (Or.inr (ih h))

lemma insertByTs_pairwise {p : QuotePoint} {l : List QuotePoint}
    (hl : l.Pairwise (fun a b => a.timestamp ≤ b.timestamp)) :
    (insertByTs p l).Pairwise (fun a b => a.timestamp ≤ b.timestamp) := by
  induction l with
  | nil => simp [insertByTs]
  | cons r rs ih =>
    rcases List.pairwise_cons.mp hl with ⟨hr, hrs⟩
    unfold insertByTs
    by_cases h : p.timestamp ≤ r.timestamp
    · rw [if_pos h]
      refine List.pairwise_cons.mpr ⟨?_, hl⟩
      intro b hb
      rcases List.mem_cons.mp hb with h1 | h1
      · rw [h1]
        exact h
      · exact le_trans h (hr b h1)
    · rw [if_neg h]
      refine List.pairwise_cons.mpr ⟨?_, ih hrs⟩
      intro b hb
      rcases mem_insertByTs hb with h1 | h1
      · rw [h1]
        exact le_of_not_le h
      · exact hr b h1

/-- The sort used before the variation computation indeed orders the
series ascending by timestamp. -/
lemma sortByTs_pairwise (l : List QuotePoint) :
    (sortByTs l).Pairwise (fun a b => a.timestamp ≤ b.timestamp) := by
  induction l with
  | nil => simp [sortByTs]
  | cons p ps ih => exact insertByTs_pairwise ih

/-! Helper lemmas about the filter engine. -/

lemma optIsin_nil (v : Option String) : optIsin v [] = false := by
  cases v <;> rfl

lemma optIsin_none (sel : List String) : optIsin none sel = false := rfl

lemma optIsin_of_mem {v : String} {sel : List String} (h : v ∈ sel) :
    optIsin (some v) sel = true := by
  simpa [optIsin] using h

lemma mem_condicoes {df : List SalesOrder} {r : SalesOrder} {v : String}
    (hr : r ∈ df) (hv : r.condicaoPagamento = some v) : v ∈ condicoes df :=
  List.mem_dedup.mpr (List.mem_filterMap.mpr ⟨r, hr, hv⟩)

lemma mem_ped_filho_options {df : List SalesOrder} {r : SalesOrder} {v : String}
    (hr : r ∈ df) (hv : r.pedidoFilho = some v) : v ∈ ped_filho_options df :=
  List.mem_dedup.mpr (List.mem_filterMap.mpr ⟨r, hr, hv⟩)

lemma mem_status_options {df : List SalesOrder} {r : SalesOrder} {v : String}
    (hr : r ∈ df) (hv : r.status = some v) : v ∈ status_options df :=
  List.mem_dedup.mpr (List.mem_filterMap.mpr ⟨r, hr, hv⟩)

lemma mem_armazens {df : List PurchaseOrder} {r : PurchaseOrder} {v : String}
    (hr : r ∈ df) (hv : r.armazem = some v) : v ∈ armazens df :=
  List.mem_dedup.mpr (List.mem_filterMap.mpr ⟨r, hr, hv⟩)

/-! The claim theorems. -/

/-- Claim C2, counterexample: the schedule gate as implemented is OPEN at
12:30 exactly on a Wednesday (weekday 2), while the claim's half-open
window [08:00, 12:30) requires it to be closed there. -/
theorem dentro_do_horario_boundary_counterexample :
    dentro_do_horario 2 12 30 = true ∧ ¬ specIsOpen 2 12 30 :=
  ⟨by norm_num [dentro_do_horario], by norm_num [specIsOpen]⟩

/-- Claim C2, amended: the gate is open exactly on Monday-Friday instants
whose clock time (seconds ignored) lies in the CLOSED windows
[08:00, 12:30] and [13:30, 18:00] - both right endpoints included,
unlike the half-open windows the claim states.  In minutes after
midnight: [480, 750] or [810, 1080]. -/
theorem dentro_do_horario_characterization (d h m : ℕ) :
    dentro_do_horario d h m = true ↔
      d < 5 ∧ ((480 ≤ 60 * h + m ∧ 60 * h + m ≤ 750) ∨
        (810 ≤ 60 * h + m ∧ 60 * h + m ≤ 1080)) := by
  unfold dentro_do_horario
  by_cases hd : 5 ≤ d
  · simp only [if_pos hd, Bool.false_eq_true, false_iff]
    rintro ⟨h1, -⟩
    omega
  · simp only [if_neg hd, decide_eq_true_eq]
    have hd5 : d < 5 := by omega
    have hx : (h : ℚ) + (m : ℚ) / 60 = ((60 * h + m : ℕ) : ℚ) / 60 := by
      push_cast
      ring
    rw [hx]
    have h60 : (0:ℚ) < 60 := by norm_num
    rw [le_div_iff₀ h60, div_le_iff₀ h60, le_div_iff₀ h60, div_le_iff₀ h60]
    norm_num
    constructor
    · intro hh
      exact ⟨hd5, by exact_mod_cast hh⟩
    · rintro ⟨-, hh⟩
      exact_mod_cast hh

/-- Claim C8: with fewer than 2 historical points the variation is
undefined - the computation returns no value (the caller skips the
cycle) instead of faulting, and in particular no division happens. -/
theorem variacao_insufficient_data (series : List QuotePoint)
    (h : series.length < 2) : variacao series = none := by
  unfold variacao
  rw [if_pos]
  rw [length_ultimos_valores]
  exact h

/-- Claim C8, witness at a one-point series. -/
theorem variacao_insufficient_data_witness :
    ([⟨1, 5⟩] : List QuotePoint).length < 2 ∧ variacao [⟨1, 5⟩] = none :=
  ⟨by decide, variacao_insufficient_data [⟨1, 5⟩] (by decide)⟩

/-- Claim C9: if either business-record collection loads zero documents,
startup halts with a user-visible warning and the refresh loop never
runs a cycle; conversely the engine only starts holding both non-empty
seed sets. -/
theorem startup_requires_both_collections :
    (∀ (p : List SalesOrder) (o : List PurchaseOrder),
      p = [] ∨ o = [] →
        startup p o =
          .halted "Nenhum dado encontrado no MongoDB. Verifique as colecoes." ∧
        entersLoop (startup p o) = false) ∧
    (∀ (p : List SalesOrder) (o : List PurchaseOrder) p2 o2,
      startup p o = .started p2 o2 → p ≠ [] ∧ o ≠ []) := by
  constructor
  · intro p o h
    have he : (p.isEmpty ∨ o.isEmpty) := by
      rcases h with h | h
      · exact Or.inl (by simp [h])
      · exact Or.inr (by simp [h])
    unfold startup
    rw [if_pos he]
    exact ⟨rfl, rfl⟩
  · intro p o p2 o2 h
    unfold startup at h
    by_cases he : (p.isEmpty ∨ o.isEmpty)
    · rw [if_pos he] at h
      exact StartupResult.noConfusion h
    · rw [if_neg he] at h
      push_neg at he
      constructor
      · intro hp
        exact he.1 (by simp [hp])
      · intro ho
        exact he.2 (by simp [ho])

/-- Claim C9, witness: the spec scenario - purchase orders load 0
documents while sales orders load 5. -/
theorem startup_requires_both_collections_witness :
    startup (List.replicate 5
        ⟨none, none, none, none, 0, none, none⟩) [] =
      .halted "Nenhum dado encontrado no MongoDB. Verifique as colecoes." ∧
    entersLoop (startup (List.replicate 5
        ⟨none, none, none, none, 0, none, none⟩) []) = false :=
  startup_requires_both_collections.1 _ [] (Or.inr rfl)

/-- Claim C3: the sales-order filter yields a subset of its input; a
record is in the result exactly when it satisfies the conjunction of
all specified dimensions; and an empty allowed list for any set-valued
dimension of a record set empties that record set's filtered view
(likewise for the purchase-order filter and its warehouse dimension). -/
theorem filtro_subset_iff_empty :
    ∀ (df : List SalesOrder) (f : FiltrosPedidos),
      df_pedidos_filtrado df f ⊆ df ∧
      (∀ r, r ∈ df_pedidos_filtrado df f ↔ r ∈ df ∧ pedidoPassa f r = true) ∧
      df_pedidos_filtrado df { f with condicaoSelecionada := [] } = [] ∧
      df_pedidos_filtrado df { f with pedidoFilhoSelecionado := [] } = [] ∧
      df_pedidos_filtrado df { f with statusSelecionado := [] } = [] ∧
      ∀ (dfo : List PurchaseOrder) (d : ℤ) (sel : List String),
        df_ordens_filtrado dfo d [] = [] ∧
        df_ordens_filtrado dfo d sel ⊆ dfo ∧
        (∀ r, r ∈ df_ordens_filtrado dfo d sel ↔
          r ∈ dfo ∧ ((r.data == some d) && optIsin r.armazem sel) = true) := by
  intro df f
  unfold df_pedidos_filtrado df_ordens_filtrado
  refine ⟨List.filter_subset' _, fun r => List.mem_filter, ?_, ?_, ?_, ?_⟩
  · rw [List.filter_eq_nil_iff]
    intro r hr
    simp [pedidoPassa, optIsin_nil]
  · rw [List.filter_eq_nil_iff]
    intro r hr
    simp [pedidoPassa, optIsin_nil]
  · rw [List.filter_eq_nil_iff]
    intro r hr
    simp [pedidoPassa, optIsin_nil]
  · intro dfo d sel
    refine ⟨?_, List.filter_subset' _, fun r => List.mem_filter⟩
    rw [List.filter_eq_nil_iff]
    intro r hr
    simp [optIsin_nil]

/-- Claim C10: a record carrying a null in a set-valued filter dimension
is excluded from the filtered view even with every offered option
selected (the option lists are the observed non-null distinct values),
because a null value is never a member of an allowed list. -/
theorem null_dimension_excluded :
    (∀ (df : List SalesOrder) (d : ℤ) (r : SalesOrder),
      r.condicaoPagamento = none ∨ r.pedidoFilho = none ∨ r.status = none →
        r ∉ df_pedidos_filtrado df
          ⟨d, condicoes df, ped_filho_options df, status_options df⟩) ∧
    (∀ (dfo : List PurchaseOrder) (d : ℤ) (r : PurchaseOrder),
      r.armazem = none → r ∉ df_ordens_filtrado dfo d (armazens dfo)) ∧
    (∀ sel : List String, optIsin none sel = false) := by
  refine ⟨?_, ?_, fun sel => optIsin_none sel⟩
  · intro df d r hnull hmem
    have := (List.mem_filter.mp hmem).2
    rcases hnull with h | h | h <;>
      simp [pedidoPassa, h, optIsin_none] at this
  · intro dfo d r hnull hmem
    have := (List.mem_filter.mp hmem).2
    simp [hnull, optIsin_none] at this

/-- Claim C10, witness: a concrete order with a null payment-term is
excluded although all observed options are selected. -/
theorem null_dimension_excluded_witness :
    (⟨none, some "Aberto", none, some "Nao", 1, some "P", some 0⟩ :
        SalesOrder).condicaoPagamento = none ∧
    (⟨none, some "Aberto", none, some "Nao", 1, some "P", some 0⟩ :
        SalesOrder) ∉
      df_pedidos_filtrado
        [⟨none, some "Aberto", none, some "Nao", 1, some "P", some 0⟩]
        ⟨0, condicoes [⟨none, some "Aberto", none, some "Nao", 1, some "P", some 0⟩],
          ped_filho_options
            [⟨none, some "Aberto", none, some "Nao", 1, some "P", some 0⟩],
          status_options
            [⟨none, some "Aberto", none, some "Nao", 1, some "P", some 0⟩]⟩ :=
  ⟨rfl, null_dimension_excluded.1 _ 0 _ (Or.inl rfl)⟩

/-- Claim C1: for a series of at least 2 points with positive bids (the
data model requires bid prices positive), the variation is exactly
(latest - secondLatest) / secondLatest * 100 computed on the two most
recent points of the timestamp-sorted series, and its sign matches the
sign of latest - secondLatest. -/
theorem variacao_formula_and_sign (series : List QuotePoint)
    (h2 : 2 ≤ series.length) (hpos : ∀ p ∈ series, 0 < p.bid)
    (vals : List ℚ) (second latest : ℚ)
    (hvals : vals = ultimos_valores series)
    (hsecond : second = vals.getD (vals.length - 2) 0)
    (hlatest : latest = vals.getD (vals.length - 1) 0) :
    variacao series = some ((latest - second) / second * 100) ∧
    (0 < (latest - second) / second * 100 ↔ 0 < latest - second) ∧
    ((latest - second) / second * 100 = 0 ↔ latest - second = 0) ∧
    ((latest - second) / second * 100 < 0 ↔ latest - second < 0) := by
  have hlen : vals.length = series.length := by
    rw [hvals, length_ultimos_valores]
  have hnotlt : ¬ (ultimos_valores series).length < 2 := by
    rw [length_ultimos_valores]
    omega
  have hformula : variacao series = some ((latest - second) / second * 100) := by
    unfold variacao
    rw [if_neg hnotlt, ← hvals, hsecond, hlatest]
  have hspos : 0 < second := by
    have hidx : vals.length - 2 < vals.length := by omega
    have hmem : vals.getD (vals.length - 2) 0 ∈ vals := by
      rw [List.getD_eq_getElem _ _ hidx]
      exact List.getElem_mem hidx
    rw [hvals] at hmem
    rcases List.mem_map.mp hmem with ⟨p, hp, hbid⟩
    have := hpos p (mem_sortByTs hp)
    rw [hsecond, hvals, ← hbid]
    exact this
  have hsne : second ≠ 0 := ne_of_gt hspos
  have hkey : (latest - second) / second * 100 = (latest - second) * (100 / second) := by
    ring
  refine ⟨hformula, ?_, ?_, ?_⟩
  · rw [hkey]
    have hc : 0 < 100 / second := by positivity
    constructor
    · intro hh
      by_contra hcon
      push_neg at hcon
      nlinarith
    · intro hh
      exact mul_pos hh hc
  · rw [hkey]
    constructor
    · intro hh
      rcases mul_eq_zero.mp hh with h | h
      · exact h
      · exact absurd h (by positivity)
    · intro hh
      rw [hh, zero_mul]
  · rw [hkey]
    have hc : 0 < 100 / second := by positivity
    constructor
    · intro hh
      by_contra hcon
      push_neg at hcon
      nlinarith
    · intro hh
      exact mul_neg_of_neg_of_pos hh hc

/-- Claim C1, witness: the two-point series with bids 5 then 6 (inserted
out of order) has variation (6 - 5) / 5 * 100 with positive sign. -/
theorem variacao_formula_and_sign_witness :
    (2 ≤ ([⟨2, 6⟩, ⟨1, 5⟩] : List QuotePoint).length) ∧
    variacao [⟨2, 6⟩, ⟨1, 5⟩] = some (((6 : ℚ) - 5) / 5 * 100) ∧
    (0 < ((6 : ℚ) - 5) / 5 * 100 ↔ 0 < (6 : ℚ) - 5) :=
  ⟨by decide,
   (variacao_formula_and_sign [⟨2, 6⟩, ⟨1, 5⟩] (by decide) (by decide)
     [5, 6] 5 6 rfl rfl rfl).1,
   (variacao_formula_and_sign [⟨2, 6⟩, ⟨1, 5⟩] (by decide) (by decide)
     [5, 6] 5 6 rfl rfl rfl).2.1⟩

lemma optIsin_observed_cond {df : List SalesOrder} {r : SalesOrder}
    (hr : r ∈ df) :
    optIsin r.condicaoPagamento (condicoes df) = r.condicaoPagamento.isSome := by
  cases h : r.condicaoPagamento with
  | none => rfl
  | some v => simp [optIsin_of_mem (mem_condicoes hr h)]

lemma optIsin_observed_filho {df : List SalesOrder} {r : SalesOrder}
    (hr : r ∈ df) :
    optIsin r.pedidoFilho (ped_filho_options df) = r.pedidoFilho.isSome := by
  cases h : r.pedidoFilho with
  | none => rfl
  | some v => simp [optIsin_of_mem (mem_ped_filho_options hr h)]

lemma optIsin_observed_status {df : List SalesOrder} {r : SalesOrder}
    (hr : r ∈ df) :
    optIsin r.status (status_options df) = r.status.isSome := by
  cases h : r.status with
  | none => rfl
  | some v => simp [optIsin_of_mem (mem_status_options hr h)]

lemma optIsin_observed_armazem {df : List PurchaseOrder} {r : PurchaseOrder}
    (hr : r ∈ df) :
    optIsin r.armazem (armazens df) = r.armazem.isSome := by
  cases h : r.armazem with
  | none => rfl
  | some v => simp [optIsin_of_mem (mem_armazens hr h)]

lemma pedidos_filtrado_observed (df : List SalesOrder) (d : ℤ) :
    df_pedidos_filtrado df
        ⟨d, condicoes df, ped_filho_options df, status_options df⟩ =
      df.filter (fun r => (r.data == some d) && r.condicaoPagamento.isSome &&
        r.pedidoFilho.isSome && r.status.isSome) := by
  unfold df_pedidos_filtrado
  apply List.filter_congr
  intro r hr
  simp only [pedidoPassa]
  rw [optIsin_observed_cond hr, optIsin_observed_filho hr,
    optIsin_observed_status hr]

lemma ordens_filtrado_observed (df : List PurchaseOrder) (d : ℤ) :
    df_ordens_filtrado df d (armazens df) =
      df.filter (fun r => (r.data == some d) && r.armazem.isSome) := by
  unfold df_ordens_filtrado
  apply List.filter_congr
  intro r hr
  rw [optIsin_observed_armazem hr]

/-- Claim C4, counterexample: a one-record set whose record carries
values in every set-valued dimension; every dimension's allowed list is
literally the full observed distinct-value list, yet the filter is not
the identity, because the record's derived date (0) differs from the
specification's selected date (1). -/
theorem filtro_all_selected_counterexample :
    df_pedidos_filtrado
        [⟨none, some "A", some "C", some "F", 1, some "P", some 0⟩]
        ⟨1, condicoes [⟨none, some "A", some "C", some "F", 1, some "P", some 0⟩],
          ped_filho_options
            [⟨none, some "A", some "C", some "F", 1, some "P", some 0⟩],
          status_options
            [⟨none, some "A", some "C", some "F", 1, some "P", some 0⟩]⟩ ≠
      [⟨none, some "A", some "C", some "F", 1, some "P", some 0⟩] := by
  decide

/-- Claim C4, amended: with every set-valued dimension's allowed list
equal to the full observed distinct-value list, the filter is not the
identity but the restriction to records whose derived date equals the
selected date and whose set-valued dimension values are all non-null;
in particular it IS the identity on record sets where every record
matches the selected date and has no null dimension value. -/
theorem filtro_all_selected_characterization :
    (∀ (df : List SalesOrder) (d : ℤ),
      df_pedidos_filtrado df
          ⟨d, condicoes df, ped_filho_options df, status_options df⟩ =
        df.filter (fun r => (r.data == some d) && r.condicaoPagamento.isSome &&
          r.pedidoFilho.isSome && r.status.isSome)) ∧
    (∀ (dfo : List PurchaseOrder) (d : ℤ),
      df_ordens_filtrado dfo d (armazens dfo) =
        dfo.filter (fun r => (r.data == some d) && r.armazem.isSome)) ∧
    (∀ (df : List SalesOrder) (d : ℤ),
      (∀ r ∈ df, r.data = some d ∧ r.condicaoPagamento.isSome = true ∧
        r.pedidoFilho.isSome = true ∧ r.status.isSome = true) →
      df_pedidos_filtrado df
          ⟨d, condicoes df, ped_filho_options df, status_options df⟩ = df) := by
  refine ⟨pedidos_filtrado_observed, ordens_filtrado_observed, ?_⟩
  intro df d hall
  rw [pedidos_filtrado_observed]
  apply List.filter_eq_self.mpr
  intro r hr
  rcases hall r hr with ⟨h1, h2, h3, h4⟩
  simp [h1, h2, h3, h4]

/-- Claim C4, witness: on a record set whose single record matches the
selected date and is everywhere non-null, all-selected filtering is the
identity. -/
theorem filtro_all_selected_characterization_witness :
    df_pedidos_filtrado
        [⟨none, some "A", some "C", some "F", 1, some "P", some 0⟩]
        ⟨0, condicoes [⟨none, some "A", some "C", some "F", 1, some "P", some 0⟩],
          ped_filho_options
            [⟨none, some "A", some "C", some "F", 1, some "P", some 0⟩],
          status_options
            [⟨none, some "A", some "C", some "F", 1, some "P", some 0⟩]⟩ =
      [⟨none, some "A", some "C", some "F", 1, some "P", some 0⟩] :=
  filtro_all_selected_characterization.2.2 _ 0 (by decide)

/-- Claim C5: the normalizer is total - column names are preserved, a
requested column present in the input is rewritten cellwise, a column
absent from the input is skipped silently, every non-numeric or missing
decimal cell normalizes to exactly 0 and every unparsable timestamp
cell normalizes to a null timestamp; no failure outcome exists. -/
theorem normalizer_total :
    ∀ (df : DataFrame) (colunas : List String),
      colNames (tratar_decimais df colunas) = colNames df ∧
      colNames (tratar_datas df colunas) = colNames df ∧
      (∀ col vals, col ∈ colunas → getCol df col = some vals →
        getCol (tratar_decimais df colunas) col =
          some (vals.map tratar_decimal_celula) ∧
        getCol (tratar_datas df colunas) col =
          some (vals.map tratar_data_celula)) ∧
      (∀ col, getCol df col = none →
        getCol (tratar_decimais df colunas) col = none ∧
        getCol (tratar_datas df colunas) col = none) ∧
      (∀ v, to_numeric v = none → tratar_decimal_celula v = .num 0) ∧
      (∀ v, to_datetime_coerce v = none → tratar_data_celula v = .nulo) := by
  intro df colunas
  unfold tratar_decimais tratar_datas
  refine ⟨colNames_tratar _ _ _, colNames_tratar _ _ _, ?_, ?_, ?_, ?_⟩
  · intro col vals hc hv
    constructor
    · rw [getCol_tratar _ tratar_decimal_celula_idem, if_pos hc, hv]
      rfl
    · rw [getCol_tratar _ tratar_data_celula_idem, if_pos hc, hv]
      rfl
  · intro col hv
    constructor
    · rw [getCol_tratar _ tratar_decimal_celula_idem]
      by_cases hc : col ∈ colunas <;> simp [hc, hv]
    · rw [getCol_tratar _ tratar_data_celula_idem]
      by_cases hc : col ∈ colunas <;> simp [hc, hv]
  · intro v h
    unfold tratar_decimal_celula
    rw [h]
    rfl
  · intro v h
    unfold tratar_data_celula
    rw [h]

/-- Claim C5, witness: a decimal column holding a non-numeric string and
a missing value normalizes to zeros, in place, with names kept. -/
theorem normalizer_total_witness :
    ("Quantidade Total" ∈ ["Quantidade Total"]) ∧
    getCol (tratar_decimais
        [("Quantidade Total", [Celula.texto "abc", Celula.nulo])]
        ["Quantidade Total"]) "Quantidade Total" =
      some ([Celula.texto "abc", Celula.nulo].map tratar_decimal_celula) ∧
    to_numeric (Celula.texto "abc") = none ∧
    tratar_decimal_celula (Celula.texto "abc") = Celula.num 0 ∧
    to_datetime_coerce (Celula.texto "abc") = none ∧
    tratar_data_celula (Celula.texto "abc") = Celula.nulo :=
  ⟨by decide,
   ((normalizer_total [("Quantidade Total", [Celula.texto "abc", Celula.nulo])]
       ["Quantidade Total"]).2.2.1 "Quantidade Total"
     [Celula.texto "abc", Celula.nulo] (by decide) rfl).1,
   rfl,
   (normalizer_total [] []).2.2.2.2.1 _ rfl,
   rfl,
   (normalizer_total [] []).2.2.2.2.2 _ rfl⟩

/-- Claim C6, counterexample: normalization does NOT make quantity fields
non-negative for all inputs - a numeric value -1 in the quantity column
passes through `tratar_decimais` unchanged and is negative. -/
theorem tratar_decimais_negative_counterexample :
    tratar_decimais [("Quantidade Total", [Celula.num (-1)])]
        ["Quantidade Total"] =
      [("Quantidade Total", [Celula.num (-1)])] ∧
    ((-1 : ℚ) < 0) :=
  ⟨rfl, by norm_num⟩

/-- Claim C6, amended: after normalization every quantity cell is a
finite numeric value (never null, so nulls cannot propagate); invalid
or non-numeric cells coerce to exactly 0; and a parseable cell keeps
its value, so the result is non-negative whenever the source value is -
but negative source values are preserved, not clamped. -/
theorem tratar_decimais_invariant :
    ∀ (df : DataFrame) (colunas : List String) (col : String)
      (vals : List Celula),
      col ∈ colunas → getCol df col = some vals →
      getCol (tratar_decimais df colunas) col =
        some (vals.map tratar_decimal_celula) ∧
      ∀ v ∈ vals, ∃ q : ℚ, tratar_decimal_celula v = .num q ∧
        (to_numeric v = none → q = 0) ∧
        (∀ q0, to_numeric v = some q0 → q = q0 ∧ (0 ≤ q0 → 0 ≤ q)) := by
  intro df colunas col vals hc hv
  constructor
  · unfold tratar_decimais
    rw [getCol_tratar _ tratar_decimal_celula_idem, if_pos hc, hv]
    rfl
  · intro v hmem
    refine ⟨(to_numeric v).getD 0, rfl, ?_, ?_⟩
    · intro h
      rw [h]
      rfl
    · intro q0 h
      rw [h]
      exact ⟨rfl, fun hq => hq⟩

/-- Claim C6, witness: a quantity column with a valid value and a junk
string normalizes to finite numerals, the junk becoming 0. -/
theorem tratar_decimais_invariant_witness :
    getCol (tratar_decimais [("Quantidade Paga", [Celula.num 2, Celula.texto "x"])]
        ["Quantidade Paga"]) "Quantidade Paga" =
      some ([Celula.num 2, Celula.texto "x"].map tratar_decimal_celula) :=
  (tratar_decimais_invariant
    [("Quantidade Paga", [Celula.num 2, Celula.texto "x"])]
    ["Quantidade Paga"] "Quantidade Paga" _ (by decide) rfl).1

/-- Claim C7, counterexample: the purchase-order date derivation
(src/app.py line 121) uses the strict datetime parse - an unparsable
timestamp raises (an error outcome, not a null), and a timezone-aware
value is kept aware, not stripped to a naive instant. -/
theorem ordens_strict_datetime_counterexample :
    to_datetime_col_strict [Celula.texto "garbage"] = Except.error "garbage" ∧
    to_datetime_strict (Celula.tsAware 0) = Except.ok (Celula.tsAware 0) :=
  ⟨rfl, rfl⟩

/-- Claim C7, amended: only the sales-order timestamps go through
`tratar_datas`, which converts timezone-aware values to UTC, strips them
to naive instants, and turns unparsable values into nulls (the output is
always naive or null); the purchase-order timestamps instead go through
the strict parse of line 121, which raises on an unparsable value and
keeps timezone-aware values aware. -/
theorem timestamp_normalization_split :
    (∀ v : Celula,
      (∀ e, v = .tsAware e → tratar_data_celula v = .tsNaive e) ∧
      (to_datetime_coerce v = none → tratar_data_celula v = .nulo) ∧
      (tratar_data_celula v = .nulo ∨ ∃ t, tratar_data_celula v = .tsNaive t)) ∧
    (∀ s : String, parseTimestamp s = none →
      to_datetime_strict (.texto s) = .error s) ∧
    (∀ e : ℤ, to_datetime_strict (.tsAware e) = .ok (.tsAware e)) := by
  refine ⟨?_, ?_, fun e => rfl⟩
  · intro v
    refine ⟨?_, ?_, tratar_data_celula_shape v⟩
    · intro e h
      rw [h]
      rfl
    · intro h
      unfold tratar_data_celula
      rw [h]
  · intro s h
    show (match parseTimestamp s with
      | some p => Except.ok (tsCelula p)
      | none => Except.error s) = Except.error s
    rw [h]

/-- Claim C7, witness: an aware instant is stripped to a naive one on the
sales-order path, while a junk string errors on the purchase-order
path. -/
theorem timestamp_normalization_split_witness :
    tratar_data_celula (Celula.tsAware 5) = Celula.tsNaive 5 ∧
    to_datetime_strict (Celula.texto "garbage") = Except.error "garbage" :=
  ⟨(timestamp_normalization_split.1 (Celula.tsAware 5)).1 5 rfl,
   timestamp_normalization_split.2.1 "garbage" rfl⟩

end DashCompras
